import Mathlib

/-!
Verification of the OAuth 2.0 authorization-code client in this repository
(`OAuth2_Github.py`, `OAuth2_Google.py`): shallow embedding of the state-cookie
protocol, the callback flow controller, the token-exchange / user-info handler,
the session user-record construction and the login-required guard, together
with theorems about the frozen specification claims.

Conventions of the embedding:
 - Python query/cookie string values are `Option String`; Python truthiness
   (`if not x`) is `pyTruthy` (absent or empty string is falsy).
 - The signed state cookie produced by `itsdangerous.URLSafeTimedSerializer`
   is modelled structurally as a `SignedToken` (payload, issue timestamp, MAC);
   an absent or empty cookie string is `none`.
 - Outbound HTTP is modelled by passing the provider's two responses as data
   and recording in the result which of the two requests was performed.
 - JSON objects (provider user-info bodies, the session `user` record) are
   association lists `List (String × JVal)`; Python `dict.get` is `jget` /
   `jgetD`.
-/

/-- Python truthiness of an optional string: `None` and `""` are falsy. -/
def pyTruthy : Option String → Bool
  | none => false
  | some s => !s.isEmpty

/-- The string carried by an optional value (only inspected under a
`pyTruthy` guard, mirroring Python short-circuit evaluation). -/
def pyStr : Option String → String
  | none => ""
  | some s => s

/-- JSON-like scalar values appearing in provider responses and the session. -/
inductive JVal
  | jnull
  | jbool (b : Bool)
  | jnum (n : Int)
  | jstr (s : String)
deriving DecidableEq, Repr

/-- A JSON object, as an association list (insertion order preserved, like a
Python dict literal). -/
abbrev JObj := List (String × JVal)

/-- Python `d.get(k)`: the value at `k`, or `None` when the key is absent. -/
def jget (d : JObj) (k : String) : JVal :=
  (d.lookup k).getD .jnull

/-- Python `d.get(k, default)`. -/
def jgetD (d : JObj) (k : String) (v : JVal) : JVal :=
  (d.lookup k).getD v

/-- Modelled from the spec: the signed-token codec (§4.1 Signed-Token Codec).
The source delegates to the external `itsdangerous.URLSafeTimedSerializer`
library, which is not part of this repository's sources; the token is
modelled structurally as payload + embedded issue timestamp + MAC over the
combination under the server secret. -/
structure SignedToken where
  payload : String
  timestamp : Nat
  mac : Nat
deriving DecidableEq, Repr

/-- Modelled from the spec: the MAC over (payload, issue-time) under the
server-held secret key. Any fixed deterministic keyed function suffices for
the codec-level claims (round-trip, expiry vs. tampering). -/
def macOf (secret : Nat) (payload : String) (ts : Nat) : Nat :=
  payload.data.foldl (fun h c => h * 65599 + c.toNat) (secret * 1000003 + ts)

/-- Modelled from the spec: `sign(payload)` — encode the payload with the
current issue timestamp and a MAC over the combination
(`cookie_serializer.dumps` in the source). -/
def signToken (secret : Nat) (now : Nat) (payload : String) : SignedToken :=
  { payload := payload, timestamp := now, mac := macOf secret payload now }

/-- Outcome of verifying a signed token: the recovered payload, a MAC
mismatch (`BadSignature`), or expiry (`SignatureExpired`). -/
inductive VerifyResult
  | ok (payload : String)
  | invalidSignature
  | expired
deriving DecidableEq, Repr

/-- Modelled from the spec: `verify(token, max_age_seconds)`
(`cookie_serializer.loads(token, max_age=...)` in the source). Signature is
checked first; a token whose MAC matches but whose age exceeds `maxAge`
fails with the distinct `expired` error. -/
def verifyToken (secret : Nat) (now : Nat) (maxAge : Nat) (tok : SignedToken) : VerifyResult :=
  if tok.mac ≠ macOf secret tok.payload tok.timestamp then
    .invalidSignature
  else if now - tok.timestamp > maxAge then
    .expired
  else
    .ok tok.payload

/-- The decision taken by the `/callback` route's state-verification prologue,
before any network activity. -/
inductive Decision
  | stateCookieMissing
  | emergency (state : String)
  | invalidStateSignature
  | stateMismatch
  | proceed (expectedState receivedState : String)
deriving DecidableEq, Repr

/-- Rendered response bodies: an HTML page identified by its salient message
text, or a redirect. -/
inductive Body
  | html (content : String)
  | redirect (target : String)
deriving DecidableEq, Repr

/-- An HTTP response as the handlers build it: status code, body, and the
set of cookies this response clears. -/
structure Response where
  status : Nat
  body : Body
  cookieClears : List String
deriving DecidableEq, Repr

/-- An error page returned with status 400 (`render_template_string(error_page(msg)), 400`). -/
def errorResponse (msg : String) : Response :=
  { status := 400, body := .html msg, cookieClears := [] }

/-- A Flask `redirect(target)` response (status 302, no cookie headers). -/
def redirectResponse (target : String) : Response :=
  { status := 302, body := .redirect target, cookieClears := [] }

/-- The `response = make_response(); response.set_cookie('oauth_state','',expires=0);
response.set_cookie('test_cookie','',expires=0)` object built at the top of
`_handle_oauth_callback` in both source files. No return statement of the
function returns this object, so it never reaches the browser. -/
def clearingResponse : Response :=
  { status := 200, body := .html "", cookieClears := ["oauth_state", "test_cookie"] }

/-- Result of running the callback: the response sent to the browser, whether
the token-exchange POST and the user-info GET were performed, and the session
`user` entry afterwards. -/
structure CallResult where
  response : Response
  tokenExchangeCalled : Bool
  userInfoCalled : Bool
  sessionUser : Option JObj
deriving DecidableEq, Repr

/-- A result that performed no outbound request and left the session as it was. -/
def noCall (r : Response) (sessionBefore : Option JObj) : CallResult :=
  { response := r, tokenExchangeCalled := false, userInfoCalled := false,
    sessionUser := sessionBefore }

/-- The provider token endpoint's response: HTTP status, raw text, and the
`access_token` / `error_description` fields of its JSON body (absent = `none`). -/
structure TokenResponse where
  statusCode : Nat
  text : String
  accessToken : Option String
  errorDescription : Option String
deriving DecidableEq, Repr

/-- The provider user-info endpoint's response: HTTP status, raw text, JSON body. -/
structure UserResponse where
  statusCode : Nat
  text : String
  data : JObj
deriving DecidableEq, Repr

namespace Github

/-- `OAuth2_Github.py` lines 283–306, decision part of `callback`: read the
`oauth_state` cookie and the `state` query parameter and decide between the
missing-cookie error, the emergency fallback, the bad-signature error, the
mismatch error, and proceeding to the exchange. -/
def callbackDecision (secret now : Nat) (stateCookie : Option SignedToken)
    (receivedState : Option String) : Decision :=
  match stateCookie with
  | none =>
      if pyTruthy receivedState && (pyStr receivedState).length > 20 then
        .emergency (pyStr receivedState)
      else
        .stateCookieMissing
  | some tok =>
      match verifyToken secret now 600 tok with
      | .ok expectedState =>
          if !pyTruthy receivedState || (pyStr receivedState != expectedState) then
            .stateMismatch
          else
            .proceed expectedState (pyStr receivedState)
      | _ => .invalidStateSignature

/-- `OAuth2_Github.py` lines 363–373: the session `user` dict built from the
GitHub user-info JSON (`user_data.get(...)`, with `public_repos` defaulting
to `0`). -/
def sessionUserOf (userData : JObj) : JObj :=
  [("id", jget userData "id"),
   ("login", jget userData "login"),
   ("name", jget userData "name"),
   ("email", jget userData "email"),
   ("avatar_url", jget userData "avatar_url"),
   ("bio", jget userData "bio"),
   ("public_repos", jgetD userData "public_repos" (.jnum 0)),
   ("html_url", jget userData "html_url")]

/-- `OAuth2_Github.py` lines 309–376, `_handle_oauth_callback`: provider
`error` check, `code` check, token exchange, access-token extraction,
user-info fetch, session write, redirect to `/welcome`. The cookie-clearing
`response` object built at lines 313–315 (`clearingResponse`) is returned by
no branch, so every response carries `cookieClears = []`. -/
def handleOauthCallback (expectedState receivedState : String) (emergency : Bool)
    (errorParam codeParam : Option String)
    (tokenResp : TokenResponse) (userResp : UserResponse)
    (sessionBefore : Option JObj) : CallResult :=
  match errorParam with
  | some e => noCall (errorResponse ("OAuth error: " ++ e)) sessionBefore
  | none =>
    if !pyTruthy codeParam then
      noCall (errorResponse "Authorization code missing") sessionBefore
    else if tokenResp.statusCode ≠ 200 then
      { response := errorResponse ("Token error: " ++ tokenResp.text),
        tokenExchangeCalled := true, userInfoCalled := false,
        sessionUser := sessionBefore }
    else if !pyTruthy tokenResp.accessToken then
      { response := errorResponse
          ("OAuth error: " ++ (tokenResp.errorDescription.getD "Unknown error")),
        tokenExchangeCalled := true, userInfoCalled := false,
        sessionUser := sessionBefore }
    else if userResp.statusCode ≠ 200 then
      { response := errorResponse ("User info error: " ++ userResp.text),
        tokenExchangeCalled := true, userInfoCalled := true,
        sessionUser := sessionBefore }
    else
      { response := redirectResponse "/welcome",
        tokenExchangeCalled := true, userInfoCalled := true,
        sessionUser := some (sessionUserOf userResp.data) }

/-- `OAuth2_Github.py` lines 283–306, the full `callback` route: the decision
prologue inlined as in the source, with the two proceed branches calling
`_handle_oauth_callback`. The `except BadSignature` arm also catches
`SignatureExpired` (a subclass of `BadSignature`), hence both non-`ok`
verification outcomes yield the "Invalid state signature" page. -/
def callback (secret now : Nat) (stateCookie : Option SignedToken)
    (receivedState errorParam codeParam : Option String)
    (tokenResp : TokenResponse) (userResp : UserResponse)
    (sessionBefore : Option JObj) : CallResult :=
  match stateCookie with
  | none =>
      if pyTruthy receivedState && (pyStr receivedState).length > 20 then
        handleOauthCallback (pyStr receivedState) (pyStr receivedState) true
          errorParam codeParam tokenResp userResp sessionBefore
      else
        noCall (errorResponse
          "State cookie not found. Try using http://127.0.0.1:5000 instead of localhost")
          sessionBefore
  | some tok =>
      match verifyToken secret now 600 tok with
      | .ok expectedState =>
          if !pyTruthy receivedState || (pyStr receivedState != expectedState) then
            noCall (errorResponse "State mismatch") sessionBefore
          else
            handleOauthCallback expectedState (pyStr receivedState) false
              errorParam codeParam tokenResp userResp sessionBefore
      | _ => noCall (errorResponse "Invalid state signature") sessionBefore

/-- The keys the GitHub dashboard handler (lines 390–404) reads from
`session["user"]`. -/
def dashboardKeys : List String :=
  ["name", "login", "email", "avatar_url", "bio", "public_repos"]

end Github

namespace Google

/-- `OAuth2_Google.py` lines 291–314, decision part of `callback`:
same prologue as the GitHub file, differing only in provider configuration. -/
def callbackDecision (secret now : Nat) (stateCookie : Option SignedToken)
    (receivedState : Option String) : Decision :=
  match stateCookie with
  | none =>
      if pyTruthy receivedState && (pyStr receivedState).length > 20 then
        .emergency (pyStr receivedState)
      else
        .stateCookieMissing
  | some tok =>
      match verifyToken secret now 600 tok with
      | .ok expectedState =>
          if !pyTruthy receivedState || (pyStr receivedState != expectedState) then
            .stateMismatch
          else
            .proceed expectedState (pyStr receivedState)
      | _ => .invalidStateSignature

/-- `OAuth2_Google.py` lines 367–374: the session `user` dict built from the
Google user-info JSON, with defaults for `name` (falling back to `email`,
then `"User"`), `picture`, and `verified_email`. -/
def sessionUserOf (userData : JObj) : JObj :=
  [("id", jget userData "id"),
   ("email", jget userData "email"),
   ("name", jgetD userData "name" (jgetD userData "email" (.jstr "User"))),
   ("picture", jgetD userData "picture" (.jstr "https://via.placeholder.com/100")),
   ("verified_email", jgetD userData "verified_email" (.jbool false))]

/-- `OAuth2_Google.py` lines 317–377, `_handle_oauth_callback`: as in the
GitHub file except the missing-access-token message is the plain
`"No access token"`. The cookie-clearing `response` of lines 321–323 is
likewise returned by no branch. -/
def handleOauthCallback (expectedState receivedState : String) (emergency : Bool)
    (errorParam codeParam : Option String)
    (tokenResp : TokenResponse) (userResp : UserResponse)
    (sessionBefore : Option JObj) : CallResult :=
  match errorParam with
  | some e => noCall (errorResponse ("OAuth error: " ++ e)) sessionBefore
  | none =>
    if !pyTruthy codeParam then
      noCall (errorResponse "Authorization code missing") sessionBefore
    else if tokenResp.statusCode ≠ 200 then
      { response := errorResponse ("Token error: " ++ tokenResp.text),
        tokenExchangeCalled := true, userInfoCalled := false,
        sessionUser := sessionBefore }
    else if !pyTruthy tokenResp.accessToken then
      { response := errorResponse "No access token",
        tokenExchangeCalled := true, userInfoCalled := false,
        sessionUser := sessionBefore }
    else if userResp.statusCode ≠ 200 then
      { response := errorResponse ("User info error: " ++ userResp.text),
        tokenExchangeCalled := true, userInfoCalled := true,
        sessionUser := sessionBefore }
    else
      { response := redirectResponse "/welcome",
        tokenExchangeCalled := true, userInfoCalled := true,
        sessionUser := some (sessionUserOf userResp.data) }

/-- `OAuth2_Google.py` lines 291–314, the full `callback` route. -/
def callback (secret now : Nat) (stateCookie : Option SignedToken)
    (receivedState errorParam codeParam : Option String)
    (tokenResp : TokenResponse) (userResp : UserResponse)
    (sessionBefore : Option JObj) : CallResult :=
  match stateCookie with
  | none =>
      if pyTruthy receivedState && (pyStr receivedState).length > 20 then
        handleOauthCallback (pyStr receivedState) (pyStr receivedState) true
          errorParam codeParam tokenResp userResp sessionBefore
      else
        noCall (errorResponse
          "State cookie not found. Try using http://127.0.0.1:5000 instead of localhost")
          sessionBefore
  | some tok =>
      match verifyToken secret now 600 tok with
      | .ok expectedState =>
          if !pyTruthy receivedState || (pyStr receivedState != expectedState) then
            noCall (errorResponse "State mismatch") sessionBefore
          else
            handleOauthCallback expectedState (pyStr receivedState) false
              errorParam codeParam tokenResp userResp sessionBefore
      | _ => noCall (errorResponse "Invalid state signature") sessionBefore

/-- The keys the Google dashboard handler (lines 391–404) reads from
`session["user"]`. -/
def dashboardKeys : List String :=
  ["name", "email", "picture", "id", "verified_email"]

end Google

/-- `login_required` (identical at `OAuth2_Github.py` 223–229 and
`OAuth2_Google.py` 229–235): if `"user"` is not in the session, redirect to
the home route (`url_for("home")` = `/`) without invoking the wrapped
handler; otherwise run the wrapped handler. The session is represented by
its optional `user` entry. -/
def login_required (f : Option JObj → Response) : Option JObj → Response :=
  fun sessionUser =>
    match sessionUser with
    | none => redirectResponse "/"
    | some _ => f sessionUser

/-- The `/welcome` route of the GitHub file: `login_required` around the
welcome-page renderer. -/
def Github.welcome : Option JObj → Response :=
  login_required (fun _ => { status := 200, body := .html "WELCOME_PAGE", cookieClears := [] })

/-- The `/dashboard` route of the GitHub file: `login_required` around the
dashboard renderer. -/
def Github.dashboard : Option JObj → Response :=
  login_required (fun _ => { status := 200, body := .html "dashboard", cookieClears := [] })

/-- The `/welcome` route of the Google file. -/
def Google.welcome : Option JObj → Response :=
  login_required (fun _ => { status := 200, body := .html "WELCOME_PAGE", cookieClears := [] })

/-- The `/dashboard` route of the Google file. -/
def Google.dashboard : Option JObj → Response :=
  login_required (fun _ => { status := 200, body := .html "dashboard", cookieClears := [] })

/-- A nonempty string is not Python-falsy. -/
theorem isEmpty_false_of_ne_empty (s : String) (h : s ≠ "") : s.isEmpty = false := by
  cases hb : s.isEmpty
  · rfl
  · exact absurd ((String.isEmpty_iff s).mp hb) h

/-- A string longer than 20 characters is nonempty. -/
theorem ne_empty_of_length_gt (s : String) (h : s.length > 20) : s ≠ "" := by
  intro hs
  subst hs
  simp at h

/-- C2: for every state string, secret key, issue time and max-age such that
verification happens within `maxAge` of signing under the same secret,
verifying the token produced by signing that state returns the original
state unchanged (round-trip of the signed-token codec). -/
theorem verifyToken_signToken_roundtrip (secret t now maxAge : Nat) (state : String)
    (h : now - t ≤ maxAge) :
    verifyToken secret now maxAge (signToken secret t state) = .ok state := by
  simp [verifyToken, signToken, Nat.not_lt.mpr h]

/-- C2 witness: signing at time 2 and verifying at time 5 with max-age 600
under secret 7 recovers the state. -/
theorem verifyToken_signToken_roundtrip_witness :
    verifyToken 7 5 600 (signToken 7 2 "state-abc") = .ok "state-abc" :=
  verifyToken_signToken_roundtrip 7 2 5 600 "state-abc" (by decide)

/-- C3: a token whose MAC is correct but whose age exceeds the max-age
window fails verification with the distinct `expired` error, which is a
different error from the `invalidSignature` raised for a MAC mismatch. -/
theorem verifyToken_expired_distinct (secret now maxAge : Nat) (tok : SignedToken)
    (hmac : tok.mac = macOf secret tok.payload tok.timestamp)
    (hage : now - tok.timestamp > maxAge) :
    verifyToken secret now maxAge tok = .expired ∧
      VerifyResult.expired ≠ VerifyResult.invalidSignature := by
  refine ⟨?_, by decide⟩
  simp [verifyToken, hmac, hage]

/-- C3 witness: a correctly signed token issued at time 0, verified at time
601 with the 600-second window, fails as `expired`. -/
theorem verifyToken_expired_distinct_witness :
    verifyToken 3 601 600 (signToken 3 0 "s") = .expired ∧
      VerifyResult.expired ≠ VerifyResult.invalidSignature :=
  verifyToken_expired_distinct 3 601 600 (signToken 3 0 "s") rfl (by decide)

/-- C8: the `login_required` guard short-circuits to a redirect to `/` when
no session user is present — for every wrapped handler, so the handler is
never consulted — and runs the wrapped handler when a session user is
present; in particular the `/welcome` and `/dashboard` routes of both files
redirect to `/` without a session. -/
theorem login_required_guard :
    (∀ f : Option JObj → Response, login_required f none = redirectResponse "/") ∧
    (∀ (f : Option JObj → Response) (u : JObj), login_required f (some u) = f (some u)) ∧
    Github.welcome none = redirectResponse "/" ∧
    Github.dashboard none = redirectResponse "/" ∧
    Google.welcome none = redirectResponse "/" ∧
    Google.dashboard none = redirectResponse "/" :=
  ⟨fun _ => rfl, fun _ _ => rfl, rfl, rfl, rfl, rfl⟩

/-- C9: the callback state-verification logic of the two provider files is
extensionally equal: for every secret, time, cookie and query state they
take the same decision. -/
theorem callbackDecision_github_google_equiv :
    ∀ (secret now : Nat) (stateCookie : Option SignedToken) (receivedState : Option String),
      Github.callbackDecision secret now stateCookie receivedState =
        Google.callbackDecision secret now stateCookie receivedState :=
  fun _ _ _ _ => rfl

/-- C1: whenever the `oauth_state` cookie is present and verifies, a query
`state` that is absent, empty, or not exactly equal to the recovered state
makes the callback fail with the "State mismatch" page and status 400, and
the token-exchange request is never performed (and the session is untouched)
— in both provider files. -/
theorem callback_state_mismatch_no_exchange (secret now : Nat) (tok : SignedToken)
    (expectedState : String) (rs errP codeP : Option String)
    (tr : TokenResponse) (ur : UserResponse) (sb : Option JObj)
    (hver : verifyToken secret now 600 tok = .ok expectedState)
    (hmis : pyTruthy rs = false ∨ pyStr rs ≠ expectedState) :
    Github.callback secret now (some tok) rs errP codeP tr ur sb =
      noCall (errorResponse "State mismatch") sb ∧
    Google.callback secret now (some tok) rs errP codeP tr ur sb =
      noCall (errorResponse "State mismatch") sb := by
  have hcond : (!pyTruthy rs || (pyStr rs != expectedState)) = true := by
    rcases hmis with h | h
    · simp [h]
    · simp [h]
  refine ⟨?_, ?_⟩ <;>
    simp [Github.callback, Google.callback, hver, hcond]

/-- C1 witness: a signed cookie recovering state `"sss"` with query state
`"other"` yields the mismatch page in both files. -/
theorem callback_state_mismatch_no_exchange_witness :
    Github.callback 5 0 (some (signToken 5 0 "sss")) (some "other") none none
        ⟨200, "", some "tok", none⟩ ⟨200, "", []⟩ none =
      noCall (errorResponse "State mismatch") none ∧
    Google.callback 5 0 (some (signToken 5 0 "sss")) (some "other") none none
        ⟨200, "", some "tok", none⟩ ⟨200, "", []⟩ none =
      noCall (errorResponse "State mismatch") none :=
  callback_state_mismatch_no_exchange 5 0 (signToken 5 0 "sss") "sss" (some "other")
    none none ⟨200, "", some "tok", none⟩ ⟨200, "", []⟩ none (by decide)
    (Or.inr (by decide))

/-- C4: with no `oauth_state` cookie, a `state` query parameter that is
absent or of length at most 20 fails with the missing-state-cookie page and
status 400; a parameter of length above 20 proceeds in emergency mode with
the query state used as both expected and received state — in both files. -/
theorem callback_missing_cookie_policy (secret now : Nat) (rs errP codeP : Option String)
    (tr : TokenResponse) (ur : UserResponse) (sb : Option JObj) :
    ((rs = none ∨ ∃ s, rs = some s ∧ s.length ≤ 20) →
      Github.callback secret now none rs errP codeP tr ur sb =
        noCall (errorResponse
          "State cookie not found. Try using http://127.0.0.1:5000 instead of localhost") sb ∧
      Google.callback secret now none rs errP codeP tr ur sb =
        noCall (errorResponse
          "State cookie not found. Try using http://127.0.0.1:5000 instead of localhost") sb) ∧
    (∀ s, rs = some s → s.length > 20 →
      Github.callback secret now none rs errP codeP tr ur sb =
        Github.handleOauthCallback s s true errP codeP tr ur sb ∧
      Google.callback secret now none rs errP codeP tr ur sb =
        Google.handleOauthCallback s s true errP codeP tr ur sb) := by
  constructor
  · rintro (rfl | ⟨s, rfl, hle⟩)
    · exact ⟨rfl, rfl⟩
    · refine ⟨?_, ?_⟩ <;>
        simp [Github.callback, Google.callback, pyTruthy, pyStr, Nat.not_lt.mpr hle]
  · rintro s rfl hgt
    have hne : s.isEmpty = false := isEmpty_false_of_ne_empty s (ne_empty_of_length_gt s hgt)
    refine ⟨?_, ?_⟩ <;>
      simp [Github.callback, Google.callback, pyTruthy, pyStr, hne, hgt]

/-- C4 witness: a short query state without the cookie fails; a 26-character
query state without the cookie reaches the emergency handler call. -/
theorem callback_missing_cookie_policy_witness :
    Github.callback 0 0 none (some "short") none none ⟨200, "", none, none⟩ ⟨200, "", []⟩ none =
      noCall (errorResponse
        "State cookie not found. Try using http://127.0.0.1:5000 instead of localhost") none ∧
    Google.callback 0 0 none (some "ABCDEFGHIJKLMNOPQRSTUVWXYZ") none none
        ⟨200, "", none, none⟩ ⟨200, "", []⟩ none =
      Google.handleOauthCallback "ABCDEFGHIJKLMNOPQRSTUVWXYZ" "ABCDEFGHIJKLMNOPQRSTUVWXYZ" true
        none none ⟨200, "", none, none⟩ ⟨200, "", []⟩ none :=
  ⟨((callback_missing_cookie_policy 0 0 (some "short") none none
      ⟨200, "", none, none⟩ ⟨200, "", []⟩ none).1 (Or.inr ⟨"short", rfl, by decide⟩)).1,
   ((callback_missing_cookie_policy 0 0 (some "ABCDEFGHIJKLMNOPQRSTUVWXYZ") none none
      ⟨200, "", none, none⟩ ⟨200, "", []⟩ none).2 "ABCDEFGHIJKLMNOPQRSTUVWXYZ" rfl (by decide)).2⟩

/-- C6: a non-200 token-endpoint response makes the handler fail with the
token-error page and status 400 after the exchange attempt, without the
user-info request, and the session `user` entry is left unchanged — in both
files. -/
theorem tokenExchange_non200_no_session (expS rcvS : String) (em : Bool)
    (codeP : Option String) (tr : TokenResponse) (ur : UserResponse) (sb : Option JObj)
    (hcode : pyTruthy codeP = true) (hstat : tr.statusCode ≠ 200) :
    Github.handleOauthCallback expS rcvS em none codeP tr ur sb =
      { response := errorResponse ("Token error: " ++ tr.text),
        tokenExchangeCalled := true, userInfoCalled := false, sessionUser := sb } ∧
    Google.handleOauthCallback expS rcvS em none codeP tr ur sb =
      { response := errorResponse ("Token error: " ++ tr.text),
        tokenExchangeCalled := true, userInfoCalled := false, sessionUser := sb } := by
  refine ⟨?_, ?_⟩ <;>
    simp [Github.handleOauthCallback, Google.handleOauthCallback, hcode, hstat]

/-- C6 witness: a 500 token response with body `boom` yields the token-error
page and leaves the session empty. -/
theorem tokenExchange_non200_no_session_witness :
    Github.handleOauthCallback "e" "r" false none (some "c")
        ⟨500, "boom", none, none⟩ ⟨200, "", []⟩ none =
      { response := errorResponse ("Token error: " ++ "boom"),
        tokenExchangeCalled := true, userInfoCalled := false, sessionUser := none } ∧
    Google.handleOauthCallback "e" "r" false none (some "c")
        ⟨500, "boom", none, none⟩ ⟨200, "", []⟩ none =
      { response := errorResponse ("Token error: " ++ "boom"),
        tokenExchangeCalled := true, userInfoCalled := false, sessionUser := none } :=
  tokenExchange_non200_no_session "e" "r" false (some "c") ⟨500, "boom", none, none⟩
    ⟨200, "", []⟩ none (by decide) (by decide)

/-- C7: a callback that passes state verification (normal or emergency
branch) and carries an `error` query parameter fails with the provider-error
page and status 400, with neither the token exchange nor the user-info
fetch performed — in both files. -/
theorem callback_provider_error_no_network (secret now : Nat)
    (stateCookie : Option SignedToken) (rs codeP : Option String) (e : String)
    (tr : TokenResponse) (ur : UserResponse) (sb : Option JObj)
    (hpass : (stateCookie = none ∧ ∃ s, rs = some s ∧ s.length > 20) ∨
      (∃ tok st, stateCookie = some tok ∧ verifyToken secret now 600 tok = .ok st ∧
        rs = some st ∧ st ≠ "")) :
    Github.callback secret now stateCookie rs (some e) codeP tr ur sb =
      noCall (errorResponse ("OAuth error: " ++ e)) sb ∧
    Google.callback secret now stateCookie rs (some e) codeP tr ur sb =
      noCall (errorResponse ("OAuth error: " ++ e)) sb := by
  rcases hpass with ⟨rfl, s, rfl, hgt⟩ | ⟨tok, st, rfl, hver, rfl, hne⟩
  · have hem : s.isEmpty = false := isEmpty_false_of_ne_empty s (ne_empty_of_length_gt s hgt)
    refine ⟨?_, ?_⟩ <;>
      simp [Github.callback, Google.callback, Github.handleOauthCallback,
        Google.handleOauthCallback, pyTruthy, pyStr, hem, hgt]
  · have hem : st.isEmpty = false := isEmpty_false_of_ne_empty st hne
    refine ⟨?_, ?_⟩ <;>
      simp [Github.callback, Google.callback, Github.handleOauthCallback,
        Google.handleOauthCallback, pyTruthy, pyStr, hver, hem]

/-- C7 witness: a verified state with `error=access_denied` in the query
yields the provider-error page with no outbound call in either file. -/
theorem callback_provider_error_no_network_witness :
    Github.callback 7 3 (some (signToken 7 3 "sss")) (some "sss") (some "access_denied")
        (some "c") ⟨200, "", some "tok", none⟩ ⟨200, "", []⟩ none =
      noCall (errorResponse ("OAuth error: " ++ "access_denied")) none ∧
    Google.callback 7 3 (some (signToken 7 3 "sss")) (some "sss") (some "access_denied")
        (some "c") ⟨200, "", some "tok", none⟩ ⟨200, "", []⟩ none =
      noCall (errorResponse ("OAuth error: " ++ "access_denied")) none :=
  callback_provider_error_no_network 7 3 (some (signToken 7 3 "sss")) (some "sss")
    (some "c") "access_denied" ⟨200, "", some "tok", none⟩ ⟨200, "", []⟩ none
    (Or.inr ⟨signToken 7 3 "sss", "sss", rfl, by decide, rfl, by decide⟩)

/-- C5 evidence: on a fully successful callback (verified state, code
present, 200 token and user-info responses) the response actually returned
to the browser in both files is the bare redirect to `/welcome`, clearing no
cookie at all; the cookie-clearing response the handler builds
(`clearingResponse`, source lines 313–315 / 321–323) is the one that would
clear `oauth_state` and `test_cookie`, but no return statement uses it. -/
theorem callback_success_does_not_clear_cookies :
    (Github.callback 7 3 (some (signToken 7 3 "thestate")) (some "thestate") none (some "c")
        ⟨200, "ok", some "tok", none⟩ ⟨200, "ok", []⟩ none).response =
      { status := 302, body := .redirect "/welcome", cookieClears := [] } ∧
    (Google.callback 7 3 (some (signToken 7 3 "thestate")) (some "thestate") none (some "c")
        ⟨200, "ok", some "tok", none⟩ ⟨200, "ok", []⟩ none).response =
      { status := 302, body := .redirect "/welcome", cookieClears := [] } ∧
    clearingResponse.cookieClears = ["oauth_state", "test_cookie"] :=
  ⟨rfl, rfl, rfl⟩

/-- C10: for every provider user-info object, the session `user` record has
exactly the fixed key set of its file, every key the dashboard reads is
present, and the documented defaults are substituted when the provider
omits a field (`public_repos` → 0 for GitHub; `name` → email then
`"User"`, `picture` → placeholder, `verified_email` → false for Google). -/
theorem sessionUser_complete_keys (d : JObj) :
    ((Github.sessionUserOf d).map Prod.fst =
      ["id", "login", "name", "email", "avatar_url", "bio", "public_repos", "html_url"]) ∧
    ((Google.sessionUserOf d).map Prod.fst =
      ["id", "email", "name", "picture", "verified_email"]) ∧
    (∀ k ∈ Github.dashboardKeys, ((Github.sessionUserOf d).lookup k).isSome = true) ∧
    (∀ k ∈ Google.dashboardKeys, ((Google.sessionUserOf d).lookup k).isSome = true) ∧
    (d.lookup "public_repos" = none →
      (Github.sessionUserOf d).lookup "public_repos" = some (.jnum 0)) ∧
    (d.lookup "name" = none →
      (Google.sessionUserOf d).lookup "name" = some (jgetD d "email" (.jstr "User"))) ∧
    (d.lookup "picture" = none →
      (Google.sessionUserOf d).lookup "picture" =
        some (.jstr "https://via.placeholder.com/100")) ∧
    (d.lookup "verified_email" = none →
      (Google.sessionUserOf d).lookup "verified_email" = some (.jbool false)) := by
  refine ⟨rfl, rfl, ?_, ?_, ?_, ?_, ?_, ?_⟩
  · intro k hk
    simp [Github.dashboardKeys] at hk
    rcases hk with rfl | rfl | rfl | rfl | rfl | rfl <;> rfl
  · intro k hk
    simp [Google.dashboardKeys] at hk
    rcases hk with rfl | rfl | rfl | rfl | rfl <;> rfl
  · intro h
    show some (jgetD d "public_repos" (.jnum 0)) = some (.jnum 0)
    simp [jgetD, h]
  · intro h
    show some (jgetD d "name" (jgetD d "email" (.jstr "User"))) =
      some (jgetD d "email" (.jstr "User"))
    simp [jgetD, h]
  · intro h
    show some (jgetD d "picture" (.jstr "https://via.placeholder.com/100")) =
      some (.jstr "https://via.placeholder.com/100")
    simp [jgetD, h]
  · intro h
    show some (jgetD d "verified_email" (.jbool false)) = some (.jbool false)
    simp [jgetD, h]

/-- C10 witness: on the empty user-info object every documented default is
substituted and the dashboard's `name` lookup still succeeds. -/
theorem sessionUser_complete_keys_witness :
    (Github.sessionUserOf []).lookup "public_repos" = some (.jnum 0) ∧
    (Google.sessionUserOf []).lookup "name" = some (.jstr "User") ∧
    (Google.sessionUserOf []).lookup "picture" =
      some (.jstr "https://via.placeholder.com/100") ∧
    (Google.sessionUserOf []).lookup "verified_email" = some (.jbool false) ∧
    ((Github.sessionUserOf []).lookup "name").isSome = true :=
  ⟨(sessionUser_complete_keys []).2.2.2.2.1 rfl,
   (sessionUser_complete_keys []).2.2.2.2.2.1 rfl,
   (sessionUser_complete_keys []).2.2.2.2.2.2.1 rfl,
   (sessionUser_complete_keys []).2.2.2.2.2.2.2 rfl,
   (sessionUser_complete_keys []).2.2.1 "name" (by decide)⟩
